import Mathlib

/-!
Shallow embedding of the Execution Data Requester
(`module/state_synchronization/requester`, file `src/unnamed/part_001`).

The requester downloads execution-data blob trees for sealed blocks,
persists them locally, and notifies subscribers in height order.  The
embedding models the fetch path (`fetchExecutionData`,
`processFetchRequest`, the retry wrapper in `processSealedHeight`,
`processBlockJob`), the notification path (`processNotificationJob`,
`processNotification`, `notifyConsumers`), the startup datastore check
(`checkDatastore`, `checkExecutionData`) and the bootstrap worker.

Go errors are modelled by the inductive `ErrKind`: the source only ever
inspects errors through `errors.Is` / `errors.As` against a fixed set of
sentinel types, and `fmt.Errorf("...: %w", err)` wrapping preserves that
classification, so an error is faithfully represented by its kind.
Side effects (status-cache calls, metrics, blob deletion, subscriber
invocations) are reified as an `Event` trace.
-/

namespace EDRequester

/-- Error kinds, as distinguished by the classification checks in the
source: `state_synchronization.MalformedDataError`,
`BlobSizeLimitExceededError`, `ErrBlobTreeDepthExceeded`,
`BlobNotFoundError`, `context.DeadlineExceeded`, `context.Canceled`,
`blockservice.ErrNotFound`, `blockstore.ErrHashMismatch`, and any other
error. -/
inductive ErrKind
  | malformedData
  | blobSizeLimitExceeded
  | blobTreeDepthExceeded
  | blobNotFound
  | deadlineExceeded
  | canceled
  | blockNotFound
  | hashMismatch
  | other
deriving DecidableEq

/-- Result of a fallible call, carrying either a value or an `ErrKind`. -/
inductive Res (α : Type)
  | ok (a : α)
  | err (e : ErrKind)
deriving DecidableEq

/-- `isInvalidBlobError` from the source (part_001 lines 622-628):
malformed data, blob size limit exceeded, or blob tree depth exceeded. -/
def  isInvalidBlobError : ErrKind → Bool
  | .malformedData => true
  | .blobSizeLimitExceeded => true
  | .blobTreeDepthExceeded => true
  | _ => false

/-- `isBlobNotFoundError` from the source (part_001 lines 630-633). -/
def  isBlobNotFoundError : ErrKind → Bool
  | .blobNotFound => true
  | _ => false

/-- The two contexts visible in `fetchExecutionData`: the parent
`SignalerContext`, and the child context carrying the `FetchTimeout`
deadline (part_001 line 410). -/
inductive Ctx
  | parent
  | timed
deriving DecidableEq

/-- Calls made against the ExecutionDataService, recording which context
each call was given. -/
inductive EdsCall
  | get (c : Ctx)
  | add (c : Ctx)
deriving DecidableEq

/-- Oracle for one fetch attempt's interactions with the
ExecutionDataService: the outcome of `eds.Get` and of `eds.Add`.
Execution data values are modelled as `Nat`. -/
structure EdsStep where
  getRes : Res Nat
  addRes : Res Unit
deriving DecidableEq

/-- `fetchExecutionData` (part_001 lines 409-437): `eds.Get` runs under
the timed child context; on success `eds.Add` runs under the parent
`signalerCtx`; an `Add` failure is wrapped with `fmt.Errorf` (kind
preserved) and returned. Returns the result together with the list of
EDS calls made. -/
def fetchExecutionData (step : EdsStep) : Res Nat × List EdsCall :=
  match step.getRes with
  | .err e => (.err e, [.get .timed])
  | .ok ed =>
    match step.addRes with
    | .err e => (.err e, [.get .timed, .add .parent])
    | .ok _ => (.ok ed, [.get .timed, .add .parent])

/-- Errors thrown to the parent scope via `ctx.Throw` (which never
returns). -/
inductive ThrowErr
  | requesterHalted
  | resultLookupFailed (e : ErrKind)
  | unexpected (e : ErrKind)
deriving DecidableEq

/-- Outcome of one `processFetchRequest` call: returned `nil`, returned
a retryable error to the retry wrapper, or threw to the parent. -/
inductive FetchOutcome
  | success
  | retryable (e : ErrKind)
  | thrown (t : ThrowErr)
deriving DecidableEq

/-- Observable side effects of the requester, reified as trace events. -/
inductive Event
  | halt
  | haltedMetric
  | fetched (height : Nat)
  | deleteBlob (cid : Nat)
  | refetch (height : Nat)
  | localGet (id : Nat)
  | consumerCalled (cb : Nat) (ed : Nat)
  | notificationSent (height : Nat)
  | jobCompleted (height : Nat)
deriving DecidableEq

/-- Inputs to one fetch attempt for a height: the execution-result
lookup (`results.ByBlockID`, ok carries the `ExecutionDataID`), the EDS
oracle, and the block height. -/
structure FetchAttempt where
  resultLookup : Res Nat
  step : EdsStep
  height : Nat
deriving DecidableEq

/-- `processFetchRequest` (part_001 lines 358-406). Lookup failure is
thrown; an invalid-blob error halts (`status.Halt()`, `metrics.Halted()`,
`ctx.Throw(ErrRequesterHalted)`); blob-not-found / deadline-exceeded /
canceled errors are returned to the retry wrapper; any other error is
thrown; on success `status.Fetched` records the entry. -/
def processFetchRequest (a : FetchAttempt) : FetchOutcome × List Event :=
  match a.resultLookup with
  | .err e => (.thrown (.resultLookupFailed e), [])
  | .ok _ =>
    match (fetchExecutionData a.step).1 with
    | .err e =>
      if isInvalidBlobError e then
        (.thrown .requesterHalted, [.halt, .haltedMetric])
      else if isBlobNotFoundError e || e = .deadlineExceeded || e = .canceled then
        (.retryable e, [])
      else
        (.thrown (.unexpected e), [])
    | .ok _ => (.success, [.fetched a.height])

/-- An attempt whose outcome is returned to the retry wrapper as
retryable. -/
def transientAttempt (a : FetchAttempt) : Bool :=
  match (processFetchRequest a).1 with
  | .retryable _ => true
  | _ => false

/-- Result of the retry loop in `processSealedHeight`: returned `nil`,
threw to the parent (never returns), or is still retrying when the
finite attempt oracle is exhausted. -/
inductive LoopResult
  | ok
  | thrown (t : ThrowErr)
  | retrying
deriving DecidableEq

/-- The `retry.Do` loop body of `processSealedHeight` (part_001 lines
344-355) over a finite oracle of attempts, carrying the 0-based attempt
counter. Each attempt that returns (success or retryable) records the
`FetchRetried` metric when the counter is positive; a thrown attempt
never reaches the metric line. Returns the loop result and the number
of `FetchRetried` metric increments. -/
def retryLoop : List FetchAttempt → Nat → LoopResult × Nat
  | [], _ => (.retrying, 0)
  | a :: rest, i =>
    match (processFetchRequest a).1 with
    | .thrown t => (.thrown t, 0)
    | .success => (.ok, if 0 < i then 1 else 0)
    | .retryable _ =>
      let r := retryLoop rest (i + 1)
      (r.1, (if 0 < i then 1 else 0) + r.2)

/-- `processSealedHeight` (part_001 lines 334-356): the retry wrapper
started with attempt counter 0. -/
def processSealedHeight (as : List FetchAttempt) : LoopResult × Nat :=
  retryLoop as 0

/-- `processBlockJob` (part_001 lines 312-330): `complete()` is called
iff `processSealedHeight` returned `nil`. -/
def processBlockJobComplete (as : List FetchAttempt) : Bool :=
  decide ((processSealedHeight as).1 = LoopResult.ok)

/-! ## Backoff (retry wrapper configuration)

`processSealedHeight` configures the third-party `go-retry` library with
`retry.NewExponential(RetryDelay)`, `retry.WithCappedDuration(MaxRetryDelay)`
and `retry.WithJitterPercent(15)` (part_001 lines 337-342). The library
itself is not part of this repository, so its backoff schedule is
modelled from the spec. -/

/-- Modelled from the spec: the nominal (pre-jitter) backoff delay before
retry number `n+1` — initial `retry_delay`, multiplied by 2 per attempt,
capped at `max_retry_delay`. `base` is `RetryDelay`, `cap` is
`MaxRetryDelay`. -/
def cappedDelay (base cap n : Nat) : Nat :=
  min (base * 2 ^ n) cap

/-- Modelled from the spec: the actual (jittered) delay lies within
±15% of the nominal delay. -/
def jitterOk (nominal actual : Nat) : Prop :=
  85 * nominal ≤ 100 * actual ∧ 100 * actual ≤ 115 * nominal

/-! ## Notification path -/

/-- `AddOnExecutionDataFetchedConsumer` (part_001 lines 264-269):
appends the callback to the consumers list. Callbacks are modelled by
identifiers. -/
def addOnExecutionDataFetchedConsumer (consumers : List Nat) (fn : Nat) : List Nat :=
  consumers ++ [fn]

/-- `notifyConsumers` (part_001 lines 478-486): invokes each registered
callback, in list order, with the execution-data value; the trace
records each invocation. -/
def notifyConsumers (consumers : List Nat) (ed : Nat) : List Event :=
  consumers.map (fun fn => .consumerCalled fn ed)

/-- Inputs to `processNotification` for one height: the cached entry's
execution data (`none` when it was purged), the execution-result lookup
(ok carries the recorded `ExecutionDataID`), and the blob-store `Get`
oracle keyed by id. -/
structure NotifyInput where
  height : Nat
  cachedED : Option Nat
  resultLookup : Res Nat
  localGet : Nat → Res Nat

/-- Errors thrown by `processNotification` via `ctx.Throw`. -/
inductive NotifyThrow
  | resultLookupFailed (e : ErrKind)
  | refetchFailed (e : ErrKind)
deriving DecidableEq

/-- `processNotification` (part_001 lines 452-476): when the cached
execution data was purged, look up the execution result and re-`Get` the
data by its recorded `ExecutionDataID`, throwing on any failure; then
invoke all consumers and record the `NotificationSent` metric (the
metric is folded into the trace as `Event.notificationSent`). -/
def processNotification (consumers : List Nat) (inp : NotifyInput) :
    Option NotifyThrow × List Event :=
  match inp.cachedED with
  | some ed =>
    (none, notifyConsumers consumers ed ++ [.notificationSent inp.height])
  | none =>
    match inp.resultLookup with
    | .err e => (some (.resultLookupFailed e), [])
    | .ok edID =>
      match inp.localGet edID with
      | .err e => (some (.refetchFailed e), [.localGet edID])
      | .ok ed =>
        (none,
          .localGet edID :: (notifyConsumers consumers ed ++ [.notificationSent inp.height]))

/-- `processNotificationJob` (part_001 lines 441-450): runs
`processNotification` and then calls `complete()`; a throw inside
`processNotification` never returns, so `complete()` is reached only
when no throw happened. Returns whether the job completed and the
event trace, with `Event.jobCompleted` marking the `complete()` call. -/
def processNotificationJob (consumers : List Nat) (inp : NotifyInput) :
    Bool × List Event :=
  match processNotification consumers inp with
  | (some _, evs) => (false, evs)
  | (none, evs) => (true, evs ++ [.jobCompleted inp.height])

/-! ## Startup datastore check -/

/-- One entry of the `invalidCIDs` list returned by `localEDS.Check`:
a CID together with the error encountered while retrieving it. -/
structure InvalidCid where
  cid : Nat
  err : ErrKind
deriving DecidableEq

/-- Errors returned (not thrown) by `checkExecutionData`. -/
inductive CheckErr
  | requesterHalted
  | deleteFailed (cid : Nat) (e : ErrKind)
  | others (es : List ErrKind)
deriving DecidableEq

/-- The loop over `invalidCIDs` in `checkExecutionData` (part_001 lines
560-595), carrying the `missing` flag and the accumulated `errs` list:
`blockservice.ErrNotFound` sets `missing`; `blockstore.ErrHashMismatch`
deletes the blob (a delete failure returns immediately) and sets
`missing`; an invalid-blob error returns `ErrRequesterHalted`
immediately; any other error is accumulated. Returns the pair the Go
function returns — the `missing` flag and the optional error — together
with the trace of blob deletions. -/
def checkLoop (del : Nat → Res Unit) :
    List InvalidCid → Bool → List ErrKind → (Bool × Option CheckErr) × List Event
  | [], missing, errs =>
    ((missing, if errs.isEmpty then none else some (.others errs.reverse)), [])
  | c :: rest, missing, errs =>
    if c.err = .blockNotFound then
      checkLoop del rest true errs
    else if c.err = .hashMismatch then
      match del c.cid with
      | .err e => ((false, some (.deleteFailed c.cid e)), [])
      | .ok _ =>
        let r := checkLoop del rest true errs
        (r.1, .deleteBlob c.cid :: r.2)
    else if isInvalidBlobError c.err then
      ((false, some .requesterHalted), [])
    else
      checkLoop del rest missing (c.err :: errs)

/-- `checkExecutionData` (part_001 lines 550-596): if `Check` reported
`ok`, return `(true, nil)`; otherwise run the loop over `invalidCIDs`
and return the `missing` flag as the first component. -/
def checkExecutionData (del : Nat → Res Unit) (ok : Bool)
    (invalidCids : List InvalidCid) : (Bool × Option CheckErr) × List Event :=
  if ok then ((true, none), [])
  else checkLoop del invalidCids false []

/-- Per-height inputs to `checkDatastore`: the height, the block lookup
(`blocks.ByHeight`, ok carries the block id), the execution-result
lookup (ok carries the `ExecutionDataID`), and the outcome of
`localEDS.Check` on that result's tree. -/
structure HeightCheck where
  height : Nat
  blockLookup : Res Nat
  resultLookup : Res Nat
  checkOk : Bool
  invalidCids : List InvalidCid

/-- Result of `checkDatastore`: returned `nil`, returned an error to the
bootstrap worker, or threw `ErrRequesterHalted` to the parent. -/
inductive DatastoreResult
  | ok
  | errored
  | thrown (t : ThrowErr)
deriving DecidableEq

/-- The height loop of `checkDatastore` (part_001 lines 506-545): for
each height, look up the block and its execution result (a failure
returns an error), run `checkExecutionData`; on `ErrRequesterHalted`
call `status.Halt()`, record the halted metric and throw; on any other
error return it; when the first returned component (bound to `exists`
by the caller) is false, dispatch the blocking refetch of that height
(`processSealedHeight`), recorded as `Event.refetch`. -/
def checkDatastore (del : Nat → Res Unit) :
    List HeightCheck → DatastoreResult × List Event
  | [] => (.ok, [])
  | h :: rest =>
    match h.blockLookup with
    | .err _ => (.errored, [])
    | .ok _ =>
      match h.resultLookup with
      | .err _ => (.errored, [])
      | .ok _ =>
        match checkExecutionData del h.checkOk h.invalidCids with
        | ((_, some .requesterHalted), evs) =>
          (.thrown .requesterHalted, evs ++ [.halt, .haltedMetric])
        | ((_, some _), evs) => (.errored, evs)
        | ((ex, none), evs) =>
          let fetchEvs := if ex then [] else [Event.refetch h.height]
          let r := checkDatastore del rest
          (r.1, evs ++ fetchEvs ++ r.2)

/-! ## Bootstrap and component wiring -/

/-- Inputs to the bootstrap worker: the halted flag read from the
status cache after `Load`, whether the datastore check is enabled, and
the result of the datastore check when run. -/
structure BootstrapInput where
  persistedHalted : Bool
  checkEnabled : Bool
  checkResult : DatastoreResult

/-- Outcome of the bootstrap worker. -/
inductive BootOutcome
  | haltedExit
  | thrownCheck
  | ready
deriving DecidableEq

/-- The bootstrap worker (part_001 lines 273-306): if the status cache
came up halted, log and return before signaling ready; otherwise run
the datastore check when enabled, throwing any error; finally signal
ready. -/
def bootstrap (inp : BootstrapInput) : BootOutcome :=
  if inp.persistedHalted then .haltedExit
  else if inp.checkEnabled then
    match inp.checkResult with
    | .ok => .ready
    | .errored => .thrownCheck
    | .thrown _ => .thrownCheck
  else .ready

/-- Modelled from the spec: the component-manager worker that starts
the block consumer (part_001 lines 229-240) first waits on the
component-wide `Ready`, which requires every worker — the bootstrap
worker included — to have signaled ready (`component` package not in
src). So the block consumer starts iff the bootstrap worker signaled
ready. -/
def blockConsumerStarted (inp : BootstrapInput) : Bool :=
  decide (bootstrap inp = BootOutcome.ready)

/-- Fetch jobs dispatched by the block consumer: the pending sealed
heights when it was started, nothing otherwise. -/
def dispatchedFetches (inp : BootstrapInput) (pending : List Nat) : List Nat :=
  if blockConsumerStarted inp then pending else []

/-- Modelled from the spec: while `halted`, the status cache yields no
notification jobs ("subsequent `next_to_notify` returns nothing"; the
`status` package is not in src), so the notification consumer emits no
notifications. -/
def nextToNotify (halted : Bool) (next : Option Nat) : Option Nat :=
  if halted then none else next

/-! ## Consumer root height -/

/-- Modulus of `uint64` arithmetic. -/
def UINT64_MOD : Nat := 2 ^ 64

/-- `rootHeight` computed in `New` (part_001 line 187):
`StartBlockHeight - 1` over `uint64`, wrapping at zero. It is passed as
the default cursor of both job-queue consumers. -/
def rootHeight (startBlockHeight : Nat) : Nat :=
  (startBlockHeight + (UINT64_MOD - 1)) % UINT64_MOD

/-- Modelled from the spec: a job-queue consumer with default cursor
`defaultIndex` processes `defaultIndex + 1` (over `uint64`) as its
first job (`jobqueue` package not in src). -/
def firstConsumedHeight (defaultIndex : Nat) : Nat :=
  (defaultIndex + 1) % UINT64_MOD

/-! ## Theorems -/

/-- C1: every fetch outcome classified Invalid (malformed blob, blob
size limit exceeded, or blob tree depth exceeded), whether hit by a
fetch worker or by the startup datastore check, calls the status
cache's `Halt`, records the halted metric, and throws
`ErrRequesterHalted` to the parent scope; the fetch is never retried
after an Invalid classification (the retry loop's result is independent
of any further attempts). -/
theorem C1_invalid_halts_and_never_retries
    (a : FetchAttempt) (e : ErrKind) (id : Nat)
    (hlook : a.resultLookup = Res.ok id)
    (hget : a.step.getRes = Res.err e)
    (hinv : isInvalidBlobError e = true) :
    processFetchRequest a
        = (.thrown .requesterHalted, [.halt, .haltedMetric])
      ∧ (∀ rest i, retryLoop (a :: rest) i = (.thrown .requesterHalted, 0))
      ∧ (∀ (del : Nat → Res Unit) (hc : HeightCheck) (rest : List HeightCheck)
          (c bid rid : Nat),
          hc.blockLookup = Res.ok bid → hc.resultLookup = Res.ok rid →
          hc.checkOk = false → hc.invalidCids = [⟨c, e⟩] →
          checkDatastore del (hc :: rest)
            = (.thrown .requesterHalted, [.halt, .haltedMetric])) := by
  have hpf : processFetchRequest a
      = (.thrown .requesterHalted, [.halt, .haltedMetric]) := by
    cases e <;>
      simp_all [processFetchRequest, fetchExecutionData, isInvalidBlobError]
  refine ⟨hpf, ?_, ?_⟩
  · intro rest i
    simp [retryLoop, hpf]
  · intro del hc rest c bid rid hb hr hok hcids
    cases e <;>
      simp_all [checkDatastore, checkExecutionData, checkLoop, isInvalidBlobError]

/-- C1 witness: a malformed-data fetch error at a concrete attempt
halts in both the fetch worker and the datastore check, with no retry. -/
theorem C1_invalid_halts_and_never_retries_witness :
    processFetchRequest ⟨Res.ok 1, ⟨Res.err .malformedData, Res.ok ()⟩, 5⟩
        = (.thrown .requesterHalted, [.halt, .haltedMetric])
      ∧ retryLoop [⟨Res.ok 1, ⟨Res.err .malformedData, Res.ok ()⟩, 5⟩] 0
        = (.thrown .requesterHalted, 0)
      ∧ checkDatastore (fun _ => Res.ok ())
          [⟨7, Res.ok 2, Res.ok 3, false, [⟨0, .malformedData⟩]⟩]
        = (.thrown .requesterHalted, [.halt, .haltedMetric]) := by
  have h := C1_invalid_halts_and_never_retries
    ⟨Res.ok 1, ⟨Res.err .malformedData, Res.ok ()⟩, 5⟩ .malformedData 1
    rfl rfl (by decide)
  exact ⟨h.1, h.2.1 [] 0,
    h.2.2 (fun _ => Res.ok ()) ⟨7, Res.ok 2, Res.ok 3, false, [⟨0, .malformedData⟩]⟩
      [] 0 2 3 rfl rfl rfl rfl⟩

/-- C4 counterexample: a fetch attempt failing with a generic transport
error (`ErrKind.other`) is not retried — `processFetchRequest` throws it
to the parent scope as an unexpected fatal error, contradicting the
claim that every Transient class member (including a generic transport
error) is retried forever and never surfaced. -/
theorem C4_generic_error_is_thrown_not_retried :
    processFetchRequest ⟨Res.ok 1, ⟨Res.err .other, Res.ok ()⟩, 7⟩
        = (.thrown (.unexpected .other), [])
      ∧ retryLoop [⟨Res.ok 1, ⟨Res.err .other, Res.ok ()⟩, 7⟩] 0
        = (.thrown (.unexpected .other), 0) := by
  decide

/-- C4 (amended): a fetch attempt failing with blob-not-found,
deadline-exceeded, or cancellation is returned to the retry wrapper as
retryable (never thrown to the parent as fatal), and a run consisting
only of such retryable attempts never throws — the loop is still
retrying after every finite prefix. Generic errors, by contrast, are
thrown (see the counterexample). -/
theorem C4_transient_errors_are_retried
    (a : FetchAttempt) (e : ErrKind) (id : Nat)
    (hlook : a.resultLookup = Res.ok id)
    (hfetch : (fetchExecutionData a.step).1 = Res.err e)
    (htrans : isBlobNotFoundError e = true ∨ e = .deadlineExceeded ∨ e = .canceled) :
    processFetchRequest a = (.retryable e, [])
      ∧ ∀ (as : List FetchAttempt) (i : Nat),
          (∀ b ∈ as, transientAttempt b = true) →
          (retryLoop as i).1 = .retrying := by
  constructor
  · rcases htrans with h | h | h
    · cases e <;>
        simp_all [processFetchRequest, isInvalidBlobError, isBlobNotFoundError]
    · subst h
      simp [processFetchRequest, hlook, hfetch, isInvalidBlobError,
        isBlobNotFoundError]
    · subst h
      simp [processFetchRequest, hlook, hfetch, isInvalidBlobError,
        isBlobNotFoundError]
  · intro as
    induction as with
    | nil => intro i _; simp [retryLoop]
    | cons b rest ih =>
      intro i hall
      have hb := hall b (by simp)
      cases hpb : (processFetchRequest b).1 with
      | retryable e' =>
        simp only [retryLoop, hpb]
        exact ih (i + 1) (fun x hx => hall x (by simp [hx]))
      | success => simp [transientAttempt, hpb] at hb
      | thrown t => simp [transientAttempt, hpb] at hb

/-- C4 witness: a blob-not-found failure at a concrete attempt is
classified retryable, and two such attempts in a row leave the loop
still retrying. -/
theorem C4_transient_errors_are_retried_witness :
    processFetchRequest ⟨Res.ok 1, ⟨Res.err .blobNotFound, Res.ok ()⟩, 7⟩
        = (.retryable .blobNotFound, [])
      ∧ (retryLoop [⟨Res.ok 1, ⟨Res.err .blobNotFound, Res.ok ()⟩, 7⟩,
          ⟨Res.ok 1, ⟨Res.err .blobNotFound, Res.ok ()⟩, 7⟩] 0).1 = .retrying := by
  have h := C4_transient_errors_are_retried
    ⟨Res.ok 1, ⟨Res.err .blobNotFound, Res.ok ()⟩, 7⟩ .blobNotFound 1
    rfl rfl (Or.inl (by decide))
  exact ⟨h.1, h.2 _ 0 (by decide)⟩

/-- C7 counterexample: when the network get succeeds but the
persistence step (`eds.Add`) fails with a cancellation error, the
failure is classified retryable — it is returned to the retry wrapper,
which retries it (here succeeding on the second attempt) — contradicting
the claim that any failure of the persistence step is surfaced as a
fatal, non-retryable error. -/
theorem C7_canceled_persist_failure_is_retried :
    processFetchRequest ⟨Res.ok 1, ⟨Res.ok 4, Res.err .canceled⟩, 9⟩
        = (.retryable .canceled, [])
      ∧ retryLoop [⟨Res.ok 1, ⟨Res.ok 4, Res.err .canceled⟩, 9⟩,
          ⟨Res.ok 1, ⟨Res.ok 4, Res.ok ()⟩, 9⟩] 0 = (.ok, 1) := by
  decide

/-- C7 (amended): for every successful network get, the tree is written
via `eds.Add` under the parent (non-timed) context while the get ran
under the timed context, so a fetch timeout cannot abort the write; and
a persistence failure is thrown to the parent as fatal unless its error
is classified as blob-not-found, deadline-exceeded, or cancellation (in
which case it is returned to the retry wrapper — see the
counterexample) or as invalid (in which case the requester halts). -/
theorem C7_persist_under_parent_generic_failure_fatal
    (s : EdsStep) (ed : Nat) (a : FetchAttempt) (e : ErrKind) (id ed' : Nat)
    (hget : s.getRes = Res.ok ed) :
    (fetchExecutionData s).2 = [.get .timed, .add .parent]
      ∧ (a.resultLookup = Res.ok id → a.step.getRes = Res.ok ed' →
          a.step.addRes = Res.err e →
          isInvalidBlobError e = false → isBlobNotFoundError e = false →
          e ≠ .deadlineExceeded → e ≠ .canceled →
          processFetchRequest a = (.thrown (.unexpected e), [])) := by
  constructor
  · cases hadd : s.addRes <;> simp [fetchExecutionData, hget, hadd]
  · intro hlook hget' hadd hninv hnnf hnd hnc
    simp [processFetchRequest, fetchExecutionData, hlook, hget', hadd,
      hninv, hnnf, hnd, hnc]

/-- C7 witness: at a concrete successful get, the call trace shows the
add under the parent context, and a generic persistence failure at a
concrete attempt is thrown fatal. -/
theorem C7_persist_under_parent_generic_failure_fatal_witness :
    (fetchExecutionData ⟨Res.ok 4, Res.ok ()⟩).2 = [.get .timed, .add .parent]
      ∧ processFetchRequest ⟨Res.ok 1, ⟨Res.ok 4, Res.err .other⟩, 9⟩
        = (.thrown (.unexpected .other), []) := by
  have h := C7_persist_under_parent_generic_failure_fatal
    ⟨Res.ok 4, Res.ok ()⟩ 4 ⟨Res.ok 1, ⟨Res.ok 4, Res.err .other⟩, 9⟩ .other 1 4
    rfl
  exact ⟨h.1, h.2 rfl rfl rfl (by decide) (by decide) (by decide) (by decide)⟩

/-- C2 (code evaluated at the failing input): `checkExecutionData`
returns its `missing` flag as the first component, which `checkDatastore`
binds as `exists` — so a height whose local tree has a blob reported
`NotFound` yields `(true, nil)`, `checkDatastore` treats the data as
present, and dispatches no blocking refetch (`Event.refetch` never
appears); likewise a `HashMismatch` blob is deleted but the height is
still not refetched. -/
theorem C2_missing_blob_is_not_refetched :
    checkExecutionData (fun _ => Res.ok ()) false [⟨0, .blockNotFound⟩]
        = ((true, none), [])
      ∧ checkDatastore (fun _ => Res.ok ())
          [⟨3, Res.ok 1, Res.ok 2, false, [⟨0, .blockNotFound⟩]⟩] = (.ok, [])
      ∧ checkDatastore (fun _ => Res.ok ())
          [⟨3, Res.ok 1, Res.ok 2, false, [⟨5, .hashMismatch⟩]⟩]
        = (.ok, [.deleteBlob 5]) := by
  decide

/-- C3: the consumers' default cursor is `start_height − 1` computed in
`uint64` arithmetic, and the first consumed (hence first notified)
height is the successor of that cursor modulo `2^64`, which equals
`start_height`; in particular `start_height = 0` wraps the cursor to
`2^64 − 1` and the first notification is for height 0. -/
theorem C3_first_height_is_start_height
    (s : Nat) (hs : s < UINT64_MOD) :
    firstConsumedHeight (rootHeight s) = s := by
  have hM : UINT64_MOD = 18446744073709551616 := by norm_num [UINT64_MOD]
  unfold firstConsumedHeight rootHeight
  rw [hM] at hs ⊢
  omega

/-- C3 witness: with `start_height = 0` the first consumed height is 0. -/
theorem C3_first_height_is_start_height_witness :
    firstConsumedHeight (rootHeight 0) = 0 :=
  C3_first_height_is_start_height 0 (by norm_num [UINT64_MOD])

/-- C5: when the persisted halted flag is true, the bootstrap worker
exits before signaling ready, so the block consumer is never started,
no fetch is dispatched, and the halted status cache yields no
notification job, so no subscriber notification is emitted. -/
theorem C5_halted_startup_disables_component
    (inp : BootstrapInput) (pending : List Nat) (next : Option Nat)
    (hh : inp.persistedHalted = true) :
    bootstrap inp = .haltedExit
      ∧ blockConsumerStarted inp = false
      ∧ dispatchedFetches inp pending = []
      ∧ nextToNotify inp.persistedHalted next = none := by
  simp [bootstrap, blockConsumerStarted, dispatchedFetches, nextToNotify, hh]

/-- C5 witness: a concrete halted startup starts nothing and emits
nothing. -/
theorem C5_halted_startup_disables_component_witness :
    bootstrap ⟨true, true, .ok⟩ = .haltedExit
      ∧ blockConsumerStarted ⟨true, true, .ok⟩ = false
      ∧ dispatchedFetches ⟨true, true, .ok⟩ [1, 2, 3] = []
      ∧ nextToNotify true (some 4) = none :=
  C5_halted_startup_disables_component ⟨true, true, .ok⟩ [1, 2, 3] (some 4) rfl

/-- C6: for a notification job whose cached execution data was purged,
the data is re-obtained by the execution result's recorded
`ExecutionDataID`; a failure of that re-fetch throws (the job is not
completed); on success every registered subscriber callback is invoked
with the execution data, the notification-sent metric is recorded, and
the `complete()` event comes only after the whole subscriber fan-out,
as the final event of the trace. -/
theorem C6_notification_refetch_and_completion_order
    (cs : List Nat) (inp : NotifyInput) (r : Nat)
    (hcache : inp.cachedED = none)
    (hres : inp.resultLookup = Res.ok r) :
    (∀ e, inp.localGet r = Res.err e →
        processNotificationJob cs inp = (false, [.localGet r]))
      ∧ (∀ ed, inp.localGet r = Res.ok ed →
        processNotificationJob cs inp
          = (true, .localGet r ::
              (notifyConsumers cs ed
                ++ [.notificationSent inp.height, .jobCompleted inp.height]))) := by
  constructor
  · intro e he
    simp [processNotificationJob, processNotification, hcache, hres, he]
  · intro ed hed
    simp [processNotificationJob, processNotification, hcache, hres, hed]

/-- C6 witness: at a concrete purged-cache job, a failing re-fetch does
not complete the job, and a successful re-fetch invokes both registered
consumers with the fetched value, records the metric, and completes
last. -/
theorem C6_notification_refetch_and_completion_order_witness :
    processNotificationJob [8, 9] ⟨10, none, Res.ok 3, fun _ => Res.err .other⟩
        = (false, [.localGet 3])
      ∧ processNotificationJob [8, 9] ⟨10, none, Res.ok 3, fun _ => Res.ok 42⟩
        = (true, [.localGet 3, .consumerCalled 8 42, .consumerCalled 9 42,
            .notificationSent 10, .jobCompleted 10]) := by
  refine ⟨(C6_notification_refetch_and_completion_order [8, 9]
      ⟨10, none, Res.ok 3, fun _ => Res.err .other⟩ 3 rfl rfl).1 .other rfl, ?_⟩
  have h := (C6_notification_refetch_and_completion_order [8, 9]
      ⟨10, none, Res.ok 3, fun _ => Res.ok 42⟩ 3 rfl rfl).2 42 rfl
  simpa [notifyConsumers] using h

/-- C8: the retry wrapper's backoff starts at `retry_delay`, doubles per
attempt, is capped at `max_retry_delay` (so every jittered delay is at
most 115% of the cap), the jitter is ±15%, and the fetch-retried metric
is recorded exactly once per attempt after the first: `n` failed
attempts followed by a success record exactly `n` increments. -/
theorem C8_backoff_and_retry_metric
    (base cap : Nat) (hbc : base ≤ cap) :
    cappedDelay base cap 0 = base
      ∧ (∀ n, cappedDelay base cap (n + 1)
          = min (2 * cappedDelay base cap n) cap)
      ∧ (∀ n, cappedDelay base cap n ≤ cap)
      ∧ (∀ n d, jitterOk (cappedDelay base cap n) d → 100 * d ≤ 115 * cap)
      ∧ (∀ (n : Nat) (fa sa : FetchAttempt),
          transientAttempt fa = true → (processFetchRequest sa).1 = .success →
          retryLoop (List.replicate n fa ++ [sa]) 0 = (.ok, n)) := by
  have hmet : ∀ (fa sa : FetchAttempt), transientAttempt fa = true →
      (processFetchRequest sa).1 = .success →
      ∀ (n i : Nat),
        retryLoop (List.replicate n fa ++ [sa]) (i + 1) = (.ok, n + 1) := by
    intro fa sa hfa hsa n
    obtain ⟨e0, hre⟩ : ∃ e0, (processFetchRequest fa).1 = .retryable e0 := by
      cases h : (processFetchRequest fa).1 with
      | retryable e0 => exact ⟨e0, rfl⟩
      | success => simp [transientAttempt, h] at hfa
      | thrown t => simp [transientAttempt, h] at hfa
    induction n with
    | zero =>
      intro i
      simp [retryLoop, hsa]
    | succ m ih =>
      intro i
      simp only [List.replicate_succ, List.cons_append, retryLoop, hre,
        List.append_eq]
      rw [ih (i + 1)]
      simp [Nat.add_comm]
  refine ⟨?_, ?_, ?_, ?_, ?_⟩
  · simp [cappedDelay]
    omega
  · intro n
    unfold cappedDelay
    rw [pow_succ, ← mul_assoc]
    generalize base * 2 ^ n = t
    omega
  · intro n
    exact Nat.min_le_right _ _
  · intro n d hj
    obtain ⟨h1, h2⟩ := hj
    have hle : cappedDelay base cap n ≤ cap := Nat.min_le_right _ _
    omega
  · intro n fa sa hfa hsa
    cases n with
    | zero => simp [retryLoop, hsa]
    | succ m =>
      obtain ⟨e0, hre⟩ : ∃ e0, (processFetchRequest fa).1 = .retryable e0 := by
        cases h : (processFetchRequest fa).1 with
        | retryable e0 => exact ⟨e0, rfl⟩
        | success => simp [transientAttempt, h] at hfa
        | thrown t => simp [transientAttempt, h] at hfa
      simp only [List.replicate_succ, List.cons_append, retryLoop, hre,
        List.append_eq]
      rw [hmet fa sa hfa hsa m 0]
      simp

/-- C8 witness: with `retry_delay = 10` and `max_retry_delay = 300`,
the first delay is 10, the sixth nominal delay is within the cap, and a
concrete run of three blob-not-found failures followed by a success
records exactly three fetch-retried increments. -/
theorem C8_backoff_and_retry_metric_witness :
    cappedDelay 10 300 0 = 10
      ∧ cappedDelay 10 300 6 ≤ 300
      ∧ retryLoop
          (List.replicate 3 ⟨Res.ok 1, ⟨Res.err .blobNotFound, Res.ok ()⟩, 7⟩
            ++ [⟨Res.ok 1, ⟨Res.ok 4, Res.ok ()⟩, 7⟩]) 0 = (.ok, 3) := by
  have h := C8_backoff_and_retry_metric 10 300 (by norm_num)
  exact ⟨h.1, h.2.2.1 6,
    h.2.2.2.2 3 ⟨Res.ok 1, ⟨Res.err .blobNotFound, Res.ok ()⟩, 7⟩
      ⟨Res.ok 1, ⟨Res.ok 4, Res.ok ()⟩, 7⟩ (by decide) (by decide)⟩

/-- C9: for every notified height, the subscriber fan-out invokes the
registered callbacks elementwise and in registration order, all with
the same execution-data value — the i-th invocation is of the i-th
registered callback, the number of invocations of a callback equals its
multiplicity in the list, and a callback registered twice via
`AddOnExecutionDataFetchedConsumer` is invoked exactly twice more than
before its registrations. -/
theorem C9_fanout_once_per_registration_in_order
    (cs : List Nat) (ed : Nat) (fn : Nat) :
    (∀ i, (notifyConsumers cs ed).get? i
        = (cs.get? i).map (fun c => Event.consumerCalled c ed))
      ∧ (notifyConsumers cs ed).length = cs.length
      ∧ (notifyConsumers cs ed).count (.consumerCalled fn ed) = cs.count fn
      ∧ notifyConsumers
          (addOnExecutionDataFetchedConsumer
            (addOnExecutionDataFetchedConsumer cs fn) fn) ed
        = notifyConsumers cs ed
            ++ [.consumerCalled fn ed, .consumerCalled fn ed] := by
  refine ⟨?_, ?_, ?_, ?_⟩
  · intro i
    simp [notifyConsumers]
  · simp [notifyConsumers]
  · simpa [notifyConsumers] using
      List.count_map_of_injective cs (fun c => Event.consumerCalled c ed)
        (fun a b h => by simpa using h) fn
  · simp [notifyConsumers, addOnExecutionDataFetchedConsumer]

/-- The retry loop returns `nil` exactly when the attempt sequence is a
run of retryable attempts followed by a successful one. -/
theorem retryLoop_ok_iff (as : List FetchAttempt) (i : Nat) :
    (retryLoop as i).1 = .ok ↔
      ∃ pre b rest, as = pre ++ b :: rest
        ∧ (∀ x ∈ pre, transientAttempt x = true)
        ∧ (processFetchRequest b).1 = .success := by
  induction as generalizing i with
  | nil =>
    simp [retryLoop]
  | cons c rest ih =>
    cases hpc : (processFetchRequest c).1 with
    | success =>
      simp only [retryLoop, hpc]
      constructor
      · intro _
        exact ⟨[], c, rest, rfl, by simp, hpc⟩
      · intro _
        trivial
    | thrown t =>
      simp only [retryLoop, hpc]
      constructor
      · intro h
        exact absurd h (by simp)
      · rintro ⟨pre, b, rest2, heq, hpre, hb⟩
        cases pre with
        | nil =>
          simp only [List.nil_append, List.cons.injEq] at heq
          rw [← heq.1, hpc] at hb
          exact absurd hb (by simp)
        | cons p ps =>
          simp only [List.cons_append, List.cons.injEq] at heq
          have hp := hpre p (by simp)
          rw [← heq.1] at hp
          simp [transientAttempt, hpc] at hp
    | retryable e =>
      simp only [retryLoop, hpc]
      rw [ih (i + 1)]
      constructor
      · rintro ⟨pre, b, rest2, heq, hpre, hb⟩
        refine ⟨c :: pre, b, rest2, by rw [heq, List.cons_append], ?_, hb⟩
        intro x hx
        rcases List.mem_cons.mp hx with hx | hx
        · rw [hx]
          simp [transientAttempt, hpc]
        · exact hpre x hx
      · rintro ⟨pre, b, rest2, heq, hpre, hb⟩
        cases pre with
        | nil =>
          simp only [List.nil_append, List.cons.injEq] at heq
          rw [← heq.1, hpc] at hb
          exact absurd hb (by simp)
        | cons p ps =>
          simp only [List.cons_append, List.cons.injEq] at heq
          exact ⟨ps, b, rest2, heq.2, fun x hx => hpre x (by simp [hx]), hb⟩

/-- C10: a fetch job is marked complete iff the retry loop for its
height returned without error, which happens exactly when a run of
retryable attempts ended in a successful attempt; and a successful
attempt requires the execution-result lookup, the network download and
the local blob-store write all to have succeeded, after which
`status.Fetched` is the recorded effect. On any error (thrown, or still
retrying) the job remains incomplete. -/
theorem C10_complete_iff_fetch_succeeded
    (as : List FetchAttempt) (a : FetchAttempt) :
    (processBlockJobComplete as = true ↔
        ∃ pre b rest, as = pre ++ b :: rest
          ∧ (∀ x ∈ pre, transientAttempt x = true)
          ∧ (processFetchRequest b).1 = .success)
      ∧ ((processFetchRequest a).1 = .success →
          (∃ id, a.resultLookup = Res.ok id)
            ∧ (∃ ed, a.step.getRes = Res.ok ed)
            ∧ a.step.addRes = Res.ok ()
            ∧ (processFetchRequest a).2 = [.fetched a.height]) := by
  constructor
  · rw [show processBlockJobComplete as = true ↔
        (processSealedHeight as).1 = .ok by
      simp [processBlockJobComplete]]
    exact retryLoop_ok_iff as 0
  · intro hs
    obtain ⟨rl, ⟨g, ad⟩, h⟩ := a
    cases rl with
    | err e => simp [processFetchRequest] at hs
    | ok id =>
      cases g with
      | err e =>
        simp only [processFetchRequest, fetchExecutionData] at hs
        split at hs <;> (try split at hs) <;> simp_all
      | ok ed =>
        cases ad with
        | err e =>
          simp only [processFetchRequest, fetchExecutionData] at hs
          split at hs <;> (try split at hs) <;> simp_all
        | ok u =>
          cases u
          simp [processFetchRequest, fetchExecutionData]

/-- C10 witness: a single successful attempt completes the job, and its
trace records the `Fetched` status-cache call for the height. -/
theorem C10_complete_iff_fetch_succeeded_witness :
    processBlockJobComplete [⟨Res.ok 1, ⟨Res.ok 4, Res.ok ()⟩, 9⟩] = true
      ∧ (processFetchRequest ⟨Res.ok 1, ⟨Res.ok 4, Res.ok ()⟩, 9⟩).2
        = [.fetched 9] := by
  refine ⟨(C10_complete_iff_fetch_succeeded
      [⟨Res.ok 1, ⟨Res.ok 4, Res.ok ()⟩, 9⟩]
      ⟨Res.ok 1, ⟨Res.ok 4, Res.ok ()⟩, 9⟩).1.mpr
      ⟨[], ⟨Res.ok 1, ⟨Res.ok 4, Res.ok ()⟩, 9⟩, [], rfl, by simp, by decide⟩,
    ((C10_complete_iff_fetch_succeeded
      [⟨Res.ok 1, ⟨Res.ok 4, Res.ok ()⟩, 9⟩]
      ⟨Res.ok 1, ⟨Res.ok 4, Res.ok ()⟩, 9⟩).2 (by decide)).2.2.2⟩

end EDRequester
